import Mathlib

/-!
Verification of the Datahub MCP server (src/main.py) against its
natural-language specification.

The Python source is shallowly embedded: pure string manipulation becomes
Lean functions on `String`/`List Char`; the HTTP client is modelled as a
`Backend` function from outgoing calls to either a raised exception
(`Except.error msg`, standing for a Python exception whose `str` is `msg`)
or an `HttpResponse`; each operation returns, besides its Python return
value, the list of HTTP calls it issued, so that "no request was made"
and "exactly one request was made" are provable facts.
-/

/-- JSON-compatible values, the payloads and results of the API
(`Dict[str, Any]` in the source). -/
inductive Json where
  | null : Json
  | bool : Bool → Json
  | num : Int → Json
  | str : String → Json
  | arr : List Json → Json
  | obj : List (String × Json) → Json

/-- The uniform error envelope `{"error": msg}` returned by the source on
every failure path. -/
def errorJson (msg : String) : Json :=
  Json.obj [("error", Json.str msg)]

/-- Query parameters, as the mapping `params: Dict[str, Any]` of the source. -/
abbrev Params := List (String × String)

/-- One outgoing HTTP call, as issued by `make_request` in `make_api_request`
(src/main.py lines 184-198).  The shape mirrors the `httpx` invocation in each
branch: `client.get(endpoint, params=params)` and
`client.post(endpoint, json=data, params=params, headers=headers)` carry the
query parameters, while `client.put(endpoint, json=data, headers=headers)` and
`client.delete(endpoint, headers=headers)` are invoked without a `params`
argument, so those calls carry none. -/
inductive HttpCall where
  | get : String → Option Params → HttpCall
  | post : String → Option Json → Option Params → HttpCall
  | put : String → Option Json → HttpCall
  | delete : String → HttpCall

/-- The query parameters actually attached to an outgoing call. -/
def HttpCall.queryParams : HttpCall → Option Params
  | HttpCall.get _ p => p
  | HttpCall.post _ _ p => p
  | HttpCall.put _ _ => none
  | HttpCall.delete _ => none

/-- A backend HTTP response: status code, raw text, and parsed JSON body
(`response.status_code`, `response.text`, `response.json()`). -/
structure HttpResponse where
  status_code : Nat
  text : String
  json : Json

/-- The HTTP client's behaviour: each outgoing call either raises
(`Except.error msg`) or yields a response. -/
abbrev Backend := HttpCall → Except String HttpResponse

/-- Python's `str.lower()`, character by character. -/
def pyLower (s : String) : String :=
  String.mk (s.data.map Char.toLower)

/-- Drop leading whitespace characters from a character list. -/
def dropWs : List Char → List Char
  | [] => []
  | c :: cs => if c.isWhitespace then dropWs cs else c :: cs

/-- Python's `str.strip()`: remove whitespace from both ends. -/
def pyStrip (s : String) : String :=
  String.mk (((dropWs s.data).reverse |> dropWs).reverse)

/-- Python truthiness of an optional string: `None` and `""` are falsy.
This is the test `if not Datahub_ctx.access_token` (src/main.py line 137)
and `if stored_token` (line 84). -/
def pyTruthy : Option String → Bool
  | none => false
  | some s => !(s == "")

/-- Whether `s` begins with the character list `p`. -/
def listStartsWith : List Char → List Char → Bool
  | [], _ => true
  | _ :: _, [] => false
  | p :: ps, c :: cs => p == c && listStartsWith ps cs

/-- Whether the character list `p` occurs contiguously inside `s`. -/
def listHasSub (p : List Char) : List Char → Bool
  | [] => listStartsWith p []
  | c :: cs => listStartsWith p (c :: cs) || listHasSub p cs

/-- Whether the string `pat` occurs as a contiguous substring of `s`. -/
def strContains (s pat : String) : Bool :=
  listHasSub pat.data s.data

/-- The per-process session context (`DatahubContext` dataclass,
src/main.py lines 39-47): the HTTP client itself is modelled separately as
a `Backend`. -/
structure DatahubContext where
  access_token : Option String
  csrf_token : Option String
  base_url : String

/-- The state of the token file at `ACCESS_TOKEN_STORE_PATH`: missing,
unreadable (opening or reading raised), or present with given contents. -/
inductive TokenFile where
  | missing : TokenFile
  | readFailure : String → TokenFile
  | contents : String → TokenFile

/-- `load_stored_token` (src/main.py lines 50-58): return the stripped file
contents when the file exists; `None` when it is missing or reading raised. -/
def load_stored_token : TokenFile → Option String
  | TokenFile.missing => none
  | TokenFile.readFailure _ => none
  | TokenFile.contents s => some (pyStrip s)

/-- Insert or overwrite a header, as `client.headers.update({k: v})`. -/
def headers_update (hs : List (String × String)) (k v : String) :
    List (String × String) :=
  if hs.any (fun p => p.1 == k) then
    hs.map (fun p => if p.1 == k then (k, v) else p)
  else
    hs ++ [(k, v)]

/-- Remove a header if present, as `client.headers.pop(k, None)`. -/
def headers_pop (hs : List (String × String)) (k : String) :
    List (String × String) :=
  hs.filter (fun p => !(p.1 == k))

/-- Look up a header value. -/
def headers_get (hs : List (String × String)) (k : String) : Option String :=
  (hs.find? (fun p => p.1 == k)).map (fun p => p.2)

/-- Context and client state at the end of startup, plus whether the
verification probe request was issued. -/
structure StartupState where
  access_token : Option String
  headers : List (String × String)
  probe_issued : Bool

/-- The startup section of `Datahub_lifespan` (src/main.py lines 77-104),
from client creation up to the `try: yield` block.  `stored_token` is the
result of `load_stored_token`; `probe` is the outcome of
`client.get("/v3/entity/dataset")` — a status code, or a raised exception.
The result is `Except`-valued to record which paths let an exception escape
this section (none do: the probe is wrapped in `try/except Exception`, and
no other statement here raises). -/
def Datahub_startup_section (stored_token : Option String)
    (probe : Except String Nat) : Except String StartupState :=
  if pyTruthy stored_token then
    let t := stored_token.getD ""
    let headers := headers_update [] "Authorization" ("Bearer " ++ t)
    match probe with
    | Except.ok status =>
      if status ≠ 200 then
        Except.ok { access_token := none,
                    headers := headers_pop headers "Authorization",
                    probe_issued := true }
      else
        Except.ok { access_token := some t, headers := headers,
                    probe_issued := true }
    | Except.error _ =>
      Except.ok { access_token := none,
                  headers := headers_pop headers "Authorization",
                  probe_issued := true }
  else
    Except.ok { access_token := none, headers := [], probe_issued := false }

/-- Outcome of a full lifespan run: the startup state reached (none when an
exception escaped startup), the served body's outcome, and whether
`await client.aclose()` executed. -/
structure LifespanOutcome where
  startup : Option StartupState
  result : Except String Unit
  client_closed : Bool

/-- `Datahub_lifespan` (src/main.py lines 70-111) end to end.  The
`try/finally` wrapping `yield` begins only after the startup section, so an
exception escaping startup would skip `client.aclose()` (the
`client_closed := false` branch); the body's outcome, success or raise,
always reaches the `finally`. -/
def Datahub_lifespan (stored_token : Option String) (probe : Except String Nat)
    (body : Except String Unit) : LifespanOutcome :=
  match Datahub_startup_section stored_token probe with
  | Except.error e =>
    { startup := none, result := Except.error e, client_closed := false }
  | Except.ok st =>
    { startup := some st, result := body, client_closed := true }

/-- Result of one catalog operation: the Python return value (or a raised
exception), paired with the HTTP calls issued during the operation. -/
abbrev OpResult := Except String Json × List HttpCall

/-- The `requires_auth` decorator (src/main.py lines 128-142): when the
context's token is falsy, return the not-authenticated envelope without
invoking the wrapped function (so no HTTP call is issued). -/
def requires_auth (ctx : DatahubContext) (func : Unit → OpResult) : OpResult :=
  if !pyTruthy ctx.access_token then
    (Except.ok (errorJson "Not authenticated. Please authenticate first."), [])
  else
    func ()

/-- The `handle_api_errors` decorator (src/main.py lines 145-159): pass a
normal return through; convert a raised exception into
`{"error": "Error in <function_name>: <message>"}`. -/
def handle_api_errors (function_name : String) (func : Unit → OpResult) :
    OpResult :=
  match func () with
  | (Except.ok r, calls) => (Except.ok r, calls)
  | (Except.error e, calls) =>
    (Except.ok (errorJson ("Error in " ++ function_name ++ ": " ++ e)), calls)

/-- The inner `make_request` of `make_api_request` (src/main.py lines
184-198): dispatch on the lowercased verb; only `get` and `post` pass
`params` to the client; an unrecognized verb raises `ValueError`. -/
def make_request (method : String) (endpoint : String) (data : Option Json)
    (params : Option Params) : Except String HttpCall :=
  if pyLower method = "get" then
    Except.ok (HttpCall.get endpoint params)
  else if pyLower method = "post" then
    Except.ok (HttpCall.post endpoint data params)
  else if pyLower method = "put" then
    Except.ok (HttpCall.put endpoint data)
  else if pyLower method = "delete" then
    Except.ok (HttpCall.delete endpoint)
  else
    Except.error ("Unsupported HTTP method: " ++ method)

/-- The query parameters attached by a `make_request` dispatch, `none` when
the dispatch raised or the call carries no query parameters. -/
def attachedParams (r : Except String HttpCall) : Option Params :=
  match r with
  | Except.ok c => c.queryParams
  | Except.error _ => none

/-- `make_api_request` (src/main.py lines 162-210): build and issue one
request; a non-2xx status yields the error envelope; otherwise the parsed
JSON body is returned.  The `auto_refresh` flag is accepted and never used.
The second component lists the HTTP calls issued. -/
def make_api_request (backend : Backend) (method : String) (endpoint : String)
    (data : Option Json) (params : Option Params) (auto_refresh : Bool) :
    Except String Json × List HttpCall :=
  match make_request method endpoint data params with
  | Except.error e => (Except.error e, [])
  | Except.ok call =>
    match backend call with
    | Except.error e => (Except.error e, [call])
    | Except.ok response =>
      if response.status_code ∉ ([200, 201] : List Nat) then
        (Except.ok (errorJson ("API request failed: "
            ++ toString response.status_code ++ " - " ++ response.text)),
         [call])
      else
        (Except.ok response.json, [call])

/-- The dataset-search endpoint built by `Datahub_dataset_list`
(src/main.py line 223), with `count` spliced in as by the f-string. -/
def datasetListEndpoint (count : Int) : String :=
  "/v3/entity/dataset?systemMetadata=false&includeSoftDelete=false&skipCache=false&aspects=datasetKey&count="
    ++ toString count ++ "&sortCriteria=urn&sortOrder=ASCENDING"

/-- The single-entity endpoint built by `Datahub_dataset_get_by_urn`
(src/main.py line 238). -/
def datasetGetEndpoint (dashboard_urn : String) : String :=
  "/v3/entity/dataset/" ++ dashboard_urn

/-- The `Datahub_dataset_list` tool (src/main.py lines 213-223), with its
decorator stack applied bottom-up as in the source:
`requires_auth (handle_api_errors body)`. -/
def Datahub_dataset_list (ctx : DatahubContext) (backend : Backend)
    (count : Int) : OpResult :=
  requires_auth ctx (fun _ =>
    handle_api_errors "Datahub_dataset_list" (fun _ =>
      make_api_request backend "get" (datasetListEndpoint count)
        none none true))

/-- The `Datahub_dataset_get_by_urn` tool (src/main.py lines 226-238), with
its decorator stack applied bottom-up as in the source. -/
def Datahub_dataset_get_by_urn (ctx : DatahubContext) (backend : Backend)
    (dashboard_urn : String) : OpResult :=
  requires_auth ctx (fun _ =>
    handle_api_errors "Datahub_dataset_get_by_urn" (fun _ =>
      make_api_request backend "get" (datasetGetEndpoint dashboard_urn)
        none none true))

/-! Helper lemmas about substring containment. -/

theorem listStartsWith_self_append (p b : List Char) :
    listStartsWith p (p ++ b) = true := by
  induction p with
  | nil => rfl
  | cons c cs ih => simp [listStartsWith, ih]

theorem listStartsWith_extend (p : List Char) :
    ∀ s t : List Char, listStartsWith p s = true →
      listStartsWith p (s ++ t) = true := by
  induction p with
  | nil => intro s t _; rfl
  | cons c cs ih =>
    intro s t h
    cases s with
    | nil => simp [listStartsWith] at h
    | cons d ds =>
      simp only [listStartsWith, Bool.and_eq_true] at h
      simp only [List.cons_append, listStartsWith, Bool.and_eq_true]
      exact ⟨h.1, ih ds t h.2⟩

theorem listHasSub_of_startsWith (p s : List Char)
    (h : listStartsWith p s = true) : listHasSub p s = true := by
  cases s with
  | nil => simpa [listHasSub] using h
  | cons c cs => simp [listHasSub, h]

theorem listHasSub_append_left (a p s : List Char)
    (h : listHasSub p s = true) : listHasSub p (a ++ s) = true := by
  induction a with
  | nil => simpa using h
  | cons c cs ih =>
    simp only [List.cons_append, listHasSub, Bool.or_eq_true]
    exact Or.inr ih

theorem listHasSub_nil_pat (t : List Char) : listHasSub [] t = true := by
  cases t with
  | nil => rfl
  | cons c cs => simp [listHasSub, listStartsWith]

theorem listHasSub_append_right (p s t : List Char)
    (h : listHasSub p s = true) : listHasSub p (s ++ t) = true := by
  induction s with
  | nil =>
    cases p with
    | nil => simpa using listHasSub_nil_pat t
    | cons c cs => simp [listHasSub, listStartsWith] at h
  | cons c cs ih =>
    simp only [listHasSub, Bool.or_eq_true] at h
    simp only [List.cons_append, listHasSub, Bool.or_eq_true]
    cases h with
    | inl h => exact Or.inl (by simpa using listStartsWith_extend p (c :: cs) t h)
    | inr h => exact Or.inr (ih h)

theorem strContains_append_left (s t p : String) (h : strContains t p = true) :
    strContains (s ++ t) p = true := by
  unfold strContains at h ⊢
  rw [String.data_append]
  exact listHasSub_append_left s.data p.data t.data h

theorem strContains_append_right (s t p : String)
    (h : strContains s p = true) : strContains (s ++ t) p = true := by
  unfold strContains at h ⊢
  rw [String.data_append]
  exact listHasSub_append_right p.data s.data t.data h

theorem strContains_self_append (p b : String) :
    strContains (p ++ b) p = true := by
  unfold strContains
  rw [String.data_append]
  exact listHasSub_of_startsWith p.data (p.data ++ b.data)
    (listStartsWith_self_append p.data b.data)

/-! Helper lemmas about `make_request` at the four recognized verbs. -/

theorem make_request_get (endpoint : String) (data : Option Json)
    (params : Option Params) :
    make_request "get" endpoint data params =
      Except.ok (HttpCall.get endpoint params) := rfl

theorem make_request_post (endpoint : String) (data : Option Json)
    (params : Option Params) :
    make_request "post" endpoint data params =
      Except.ok (HttpCall.post endpoint data params) := rfl

theorem make_request_put (endpoint : String) (data : Option Json)
    (params : Option Params) :
    make_request "put" endpoint data params =
      Except.ok (HttpCall.put endpoint data) := rfl

theorem make_request_delete (endpoint : String) (data : Option Json)
    (params : Option Params) :
    make_request "delete" endpoint data params =
      Except.ok (HttpCall.delete endpoint) := rfl

/-! The startup section never lets an exception escape. -/

theorem Datahub_startup_section_ne_error (stored_token : Option String)
    (probe : Except String Nat) :
    ∃ st, Datahub_startup_section stored_token probe = Except.ok st := by
  unfold Datahub_startup_section
  by_cases h : pyTruthy stored_token = true
  · simp only [h, if_true]
    cases probe with
    | ok status =>
      by_cases hs : status ≠ 200 <;> simp [hs]
    | error e => simp
  · simp [h]

/-- An authenticated `get` operation run through the decorator stack, when
the backend raises: the result is the error-normalizer envelope and the one
attempted call. -/
theorem authed_get_raise (ctx : DatahubContext) (backend : Backend)
    (n ep e : String) (hauth : pyTruthy ctx.access_token = true)
    (hb : backend (HttpCall.get ep none) = Except.error e) :
    requires_auth ctx (fun _ => handle_api_errors n (fun _ =>
        make_api_request backend "get" ep none none true)) =
      (Except.ok (errorJson ("Error in " ++ n ++ ": " ++ e)),
       [HttpCall.get ep none]) := by
  unfold requires_auth handle_api_errors make_api_request
  rw [make_request_get]
  dsimp only
  rw [hb]
  simp [hauth]

/-- An authenticated `get` operation run through the decorator stack issues
exactly one HTTP call, whatever the backend does. -/
theorem authed_get_calls (ctx : DatahubContext) (backend : Backend)
    (n ep : String) (hauth : pyTruthy ctx.access_token = true) :
    (requires_auth ctx (fun _ => handle_api_errors n (fun _ =>
        make_api_request backend "get" ep none none true))).2 =
      [HttpCall.get ep none] := by
  unfold requires_auth handle_api_errors make_api_request
  rw [make_request_get]
  dsimp only
  cases hb : backend (HttpCall.get ep none) with
  | error e => simp [hauth]
  | ok r =>
    dsimp only
    by_cases h2 : r.status_code ∉ ([200, 201] : List Nat)
    · rw [if_pos h2]
      simp [hauth]
    · rw [if_neg h2]
      simp [hauth]

/-! Claim theorems. -/

/-- Claim C1: for every catalog operation (`Datahub_dataset_list`,
`Datahub_dataset_get_by_urn`) and every argument, if the session context's
access token is absent, the operation returns exactly
`{"error": "Not authenticated. Please authenticate first."}` and no HTTP
request is issued. -/
theorem C1_auth_gate_blocks (ctx : DatahubContext) (backend : Backend)
    (count : Int) (dashboard_urn : String)
    (h : pyTruthy ctx.access_token = false) :
    Datahub_dataset_list ctx backend count =
      (Except.ok (errorJson "Not authenticated. Please authenticate first."),
       ([] : List HttpCall))
    ∧ Datahub_dataset_get_by_urn ctx backend dashboard_urn =
      (Except.ok (errorJson "Not authenticated. Please authenticate first."),
       ([] : List HttpCall)) := by
  unfold Datahub_dataset_list Datahub_dataset_get_by_urn requires_auth
  simp [h]

/-- Witness for C1: a context with no token, a backend that would raise. -/
theorem C1_auth_gate_blocks_witness :
    Datahub_dataset_list ⟨none, none, "http://localhost:8088"⟩
        (fun _ => Except.error "boom") 5 =
      (Except.ok (errorJson "Not authenticated. Please authenticate first."),
       ([] : List HttpCall))
    ∧ Datahub_dataset_get_by_urn ⟨none, none, "http://localhost:8088"⟩
        (fun _ => Except.error "boom") "urn:li:dataset:abc" =
      (Except.ok (errorJson "Not authenticated. Please authenticate first."),
       ([] : List HttpCall)) :=
  C1_auth_gate_blocks ⟨none, none, "http://localhost:8088"⟩
    (fun _ => Except.error "boom") 5 "urn:li:dataset:abc" rfl

/-- Claim C2: for every catalog operation, if the wrapped operation body
raises any failure, the operation returns exactly
`{"error": "Error in <name>: <message>"}` with that operation's identifying
name and the failure's message; the failure does not propagate abnormally to
the host (the first component is `Except.ok`, i.e. a normal return). -/
theorem C2_error_normalizer (ctx : DatahubContext) (backend : Backend)
    (count : Int) (dashboard_urn : String) (e : String)
    (hauth : pyTruthy ctx.access_token = true)
    (hb1 : backend (HttpCall.get (datasetListEndpoint count) none) =
      Except.error e)
    (hb2 : backend (HttpCall.get (datasetGetEndpoint dashboard_urn) none) =
      Except.error e) :
    (Datahub_dataset_list ctx backend count).1 =
      Except.ok (errorJson ("Error in Datahub_dataset_list: " ++ e))
    ∧ (Datahub_dataset_get_by_urn ctx backend dashboard_urn).1 =
      Except.ok (errorJson ("Error in Datahub_dataset_get_by_urn: " ++ e)) := by
  have h1 := authed_get_raise ctx backend "Datahub_dataset_list"
    (datasetListEndpoint count) e hauth hb1
  have h2 := authed_get_raise ctx backend "Datahub_dataset_get_by_urn"
    (datasetGetEndpoint dashboard_urn) e hauth hb2
  unfold Datahub_dataset_list Datahub_dataset_get_by_urn
  rw [h1, h2]
  exact ⟨rfl, rfl⟩

/-- Witness for C2: an authenticated context and a backend that raises
`boom` on every call. -/
theorem C2_error_normalizer_witness :
    (Datahub_dataset_list ⟨some "tok123", none, "http://localhost:8088"⟩
        (fun _ => Except.error "boom") 5).1 =
      Except.ok (errorJson ("Error in Datahub_dataset_list: " ++ "boom"))
    ∧ (Datahub_dataset_get_by_urn
        ⟨some "tok123", none, "http://localhost:8088"⟩
        (fun _ => Except.error "boom") "urn:li:dataset:abc").1 =
      Except.ok (errorJson ("Error in Datahub_dataset_get_by_urn: "
        ++ "boom")) :=
  C2_error_normalizer ⟨some "tok123", none, "http://localhost:8088"⟩
    (fun _ => Except.error "boom") 5 "urn:li:dataset:abc" "boom"
    (by decide) rfl rfl

/-- Claim C3: whenever the backend's response status is neither 200 nor 201
(including 401), `make_api_request` issues no further request — the list of
issued calls is exactly the one original call, so there is no
re-authentication and no retry — and returns exactly
`{"error": "API request failed: <status> - <response text>"}`. -/
theorem C3_non2xx_error_envelope (backend : Backend)
    (method endpoint : String) (data : Option Json) (params : Option Params)
    (auto_refresh : Bool) (call : HttpCall) (response : HttpResponse)
    (hcall : make_request method endpoint data params = Except.ok call)
    (hresp : backend call = Except.ok response)
    (hstatus : response.status_code ∉ ([200, 201] : List Nat)) :
    make_api_request backend method endpoint data params auto_refresh =
      (Except.ok (errorJson ("API request failed: "
          ++ toString response.status_code ++ " - " ++ response.text)),
       [call]) := by
  unfold make_api_request
  rw [hcall]
  dsimp only
  rw [hresp]
  dsimp only
  simp [hstatus]

/-- Witness for C3: a backend answering 401, reached through a `get`. -/
theorem C3_non2xx_error_envelope_witness :
    make_api_request
        (fun _ => Except.ok ⟨401, "Unauthorized", Json.null⟩)
        "get" "/v3/entity/dataset" none none true =
      (Except.ok (errorJson ("API request failed: "
          ++ toString (401 : Nat) ++ " - " ++ "Unauthorized")),
       [HttpCall.get "/v3/entity/dataset" none]) :=
  C3_non2xx_error_envelope (fun _ => Except.ok ⟨401, "Unauthorized", Json.null⟩)
    "get" "/v3/entity/dataset" none none true
    (HttpCall.get "/v3/entity/dataset" none) ⟨401, "Unauthorized", Json.null⟩
    (make_request_get _ _ _) rfl (by decide)

/-- Claim C4: whenever the backend responds with status 200 or 201 and JSON
body `v`, `make_api_request` returns exactly that parsed body `v`
(identity on success). -/
theorem C4_success_identity (backend : Backend)
    (method endpoint : String) (data : Option Json) (params : Option Params)
    (auto_refresh : Bool) (call : HttpCall) (status : Nat) (text : String)
    (v : Json)
    (hcall : make_request method endpoint data params = Except.ok call)
    (hresp : backend call = Except.ok ⟨status, text, v⟩)
    (hstatus : status ∈ ([200, 201] : List Nat)) :
    make_api_request backend method endpoint data params auto_refresh =
      (Except.ok v, [call]) := by
  unfold make_api_request
  rw [hcall]
  dsimp only
  rw [hresp]
  dsimp only
  simp [hstatus]

/-- Witness for C4: a backend echoing a fixed JSON body with status 200. -/
theorem C4_success_identity_witness :
    make_api_request
        (fun _ => Except.ok ⟨200, "ok", Json.obj [("total", Json.num 3)]⟩)
        "get" "/v3/entity/dataset" none none true =
      (Except.ok (Json.obj [("total", Json.num 3)]),
       [HttpCall.get "/v3/entity/dataset" none]) :=
  C4_success_identity
    (fun _ => Except.ok ⟨200, "ok", Json.obj [("total", Json.num 3)]⟩)
    "get" "/v3/entity/dataset" none none true
    (HttpCall.get "/v3/entity/dataset" none) 200 "ok"
    (Json.obj [("total", Json.num 3)])
    (make_request_get _ _ _) rfl (by decide)

/-- Claim C5 counterexample: for the verb `put` with a non-empty
query-parameter mapping, `make_request` builds a call carrying no query
parameters at all — `client.put` is invoked without the `params` argument —
so the parameters are NOT attached regardless of verb, refuting the claim. -/
theorem C5_counterexample :
    attachedParams (make_request "put" "/v3/entity/dataset" none
        (some [("count", "5")])) ≠ some [("count", "5")] := by
  decide

/-- Claim C5 (amended): for every endpoint, body and non-empty parameter
mapping, the dispatch attaches the query parameters for the verbs `get` and
`post` (case-insensitively), but silently drops them for `put` and `delete`,
whose client invocations omit the `params` argument. -/
theorem C5_params_only_get_post (endpoint : String) (data : Option Json)
    (ps : Params) :
    attachedParams (make_request "get" endpoint data (some ps)) = some ps
    ∧ attachedParams (make_request "GET" endpoint data (some ps)) = some ps
    ∧ attachedParams (make_request "post" endpoint data (some ps)) = some ps
    ∧ attachedParams (make_request "POST" endpoint data (some ps)) = some ps
    ∧ attachedParams (make_request "put" endpoint data (some ps)) = none
    ∧ attachedParams (make_request "PUT" endpoint data (some ps)) = none
    ∧ attachedParams (make_request "delete" endpoint data (some ps)) = none
    ∧ attachedParams (make_request "DELETE" endpoint data (some ps)) = none :=
  ⟨rfl, rfl, rfl, rfl, rfl, rfl, rfl, rfl⟩

/-- Claim C6 counterexample: at `count = 5`, the query string built by
`Datahub_dataset_list` sets `skipCache=false` and nowhere requests
`skipCache=true`, so the request does NOT skip the cache layer, refuting
that part of the claim. -/
theorem C6_counterexample :
    strContains (datasetListEndpoint 5) "skipCache=true" = false
    ∧ strContains (datasetListEndpoint 5) "skipCache=false" = true :=
  ⟨by decide, by decide⟩

/-- Claim C6 (amended): for every integer `count`, an authenticated
`Datahub_dataset_list count` issues a single GET to the dataset-search
endpoint whose query string requests exactly `count` results
(`count=<count>`), sorts ascending by identifier (`sortCriteria=urn`,
`sortOrder=ASCENDING`) and excludes soft-deleted entities
(`includeSoftDelete=false`), but sets `skipCache=false` — it does not skip
the cache layer. -/
theorem C6_dataset_list_query (ctx : DatahubContext) (backend : Backend)
    (count : Int) (hauth : pyTruthy ctx.access_token = true) :
    (Datahub_dataset_list ctx backend count).2 =
      [HttpCall.get (datasetListEndpoint count) none]
    ∧ strContains (datasetListEndpoint count)
        ("count=" ++ toString count) = true
    ∧ strContains (datasetListEndpoint count) "sortCriteria=urn" = true
    ∧ strContains (datasetListEndpoint count) "sortOrder=ASCENDING" = true
    ∧ strContains (datasetListEndpoint count) "includeSoftDelete=false" = true
    ∧ strContains (datasetListEndpoint count) "skipCache=false" = true := by
  refine ⟨authed_get_calls ctx backend "Datahub_dataset_list"
    (datasetListEndpoint count) hauth, ?_, ?_, ?_, ?_, ?_⟩
  · unfold datasetListEndpoint strContains
    rw [show ("/v3/entity/dataset?systemMetadata=false&includeSoftDelete=false&skipCache=false&aspects=datasetKey&count=" : String)
        = "/v3/entity/dataset?systemMetadata=false&includeSoftDelete=false&skipCache=false&aspects=datasetKey&"
          ++ "count=" from rfl]
    simp only [String.data_append, List.append_assoc]
    have hsw := listStartsWith_self_append
      (("count=" : String).data ++ (toString count).data)
      (("&sortCriteria=urn&sortOrder=ASCENDING" : String).data)
    rw [List.append_assoc] at hsw
    exact listHasSub_append_left _ _ _ (listHasSub_of_startsWith _ _ hsw)
  · unfold datasetListEndpoint strContains
    simp only [String.data_append, List.append_assoc]
    exact listHasSub_append_left _ _ _
      (listHasSub_append_left _ _ _ (by decide))
  · unfold datasetListEndpoint strContains
    simp only [String.data_append, List.append_assoc]
    exact listHasSub_append_left _ _ _
      (listHasSub_append_left _ _ _ (by decide))
  · unfold datasetListEndpoint strContains
    simp only [String.data_append, List.append_assoc]
    exact listHasSub_append_right _ _ _ (by decide)
  · unfold datasetListEndpoint strContains
    simp only [String.data_append, List.append_assoc]
    exact listHasSub_append_right _ _ _ (by decide)

/-- Witness for C6 (amended) at `count = 5` with an authenticated context. -/
theorem C6_dataset_list_query_witness :
    (Datahub_dataset_list ⟨some "tok123", none, "http://localhost:8088"⟩
        (fun _ => Except.ok ⟨200, "ok", Json.null⟩) 5).2 =
      [HttpCall.get (datasetListEndpoint 5) none]
    ∧ strContains (datasetListEndpoint 5)
        ("count=" ++ toString (5 : Int)) = true
    ∧ strContains (datasetListEndpoint 5) "sortCriteria=urn" = true
    ∧ strContains (datasetListEndpoint 5) "sortOrder=ASCENDING" = true
    ∧ strContains (datasetListEndpoint 5) "includeSoftDelete=false" = true
    ∧ strContains (datasetListEndpoint 5) "skipCache=false" = true :=
  C6_dataset_list_query ⟨some "tok123", none, "http://localhost:8088"⟩
    (fun _ => Except.ok ⟨200, "ok", Json.null⟩) 5 (by decide)

/-- Python truthiness of a non-empty token string. -/
theorem pyTruthy_of_ne (t : String) (ht : t ≠ "") :
    pyTruthy (some t) = true := by
  simp [pyTruthy, ht]

/-- Startup with a stored token and a probe answering a status other than
200 clears the token and removes the Authorization header. -/
theorem startup_drops_token_on_bad_status (t : String) (status : Nat)
    (ht : t ≠ "") (hs : status ≠ 200) :
    Datahub_startup_section (some t) (Except.ok status) =
      Except.ok { access_token := none, headers := [],
                  probe_issued := true } := by
  unfold Datahub_startup_section
  simp only [pyTruthy_of_ne t ht, if_true]
  rw [if_pos hs]
  rfl

/-- Startup with a stored token and a probe that raises clears the token
and removes the Authorization header. -/
theorem startup_drops_token_on_probe_raise (t e : String) (ht : t ≠ "") :
    Datahub_startup_section (some t) (Except.error e) =
      Except.ok { access_token := none, headers := [],
                  probe_issued := true } := by
  unfold Datahub_startup_section
  simp only [pyTruthy_of_ne t ht, if_true]
  rfl

/-- Startup with a stored token the probe accepts (status 200) keeps the
token and the Authorization header. -/
theorem startup_keeps_token_on_200 (t : String) (ht : t ≠ "") :
    Datahub_startup_section (some t) (Except.ok 200) =
      Except.ok { access_token := some t,
                  headers := [("Authorization", "Bearer " ++ t)],
                  probe_issued := true } := by
  unfold Datahub_startup_section
  simp only [pyTruthy_of_ne t ht, if_true]
  rw [if_neg (by simp)]
  rfl

/-- Claim C7: after startup with a stored token present, a raising or
non-200 probe leaves the context's token `none` and the Authorization
header absent, while a 200 probe leaves the token set and the header
attached. -/
theorem C7_startup_probe (t : String) (status : Nat) (e : String)
    (ht : t ≠ "") (hs : status ≠ 200) :
    Datahub_startup_section (some t) (Except.ok status) =
      Except.ok { access_token := none, headers := [],
                  probe_issued := true }
    ∧ Datahub_startup_section (some t) (Except.error e) =
      Except.ok { access_token := none, headers := [],
                  probe_issued := true }
    ∧ Datahub_startup_section (some t) (Except.ok 200) =
      Except.ok { access_token := some t,
                  headers := [("Authorization", "Bearer " ++ t)],
                  probe_issued := true } :=
  ⟨startup_drops_token_on_bad_status t status ht hs,
   startup_drops_token_on_probe_raise t e ht,
   startup_keeps_token_on_200 t ht⟩

/-- Witness for C7: token `tok123`, rejected probe status 401, raising
probe message, and accepted probe status 200. -/
theorem C7_startup_probe_witness :
    Datahub_startup_section (some "tok123") (Except.ok 401) =
      Except.ok { access_token := none, headers := [],
                  probe_issued := true }
    ∧ Datahub_startup_section (some "tok123")
        (Except.error "Connection refused") =
      Except.ok { access_token := none, headers := [],
                  probe_issued := true }
    ∧ Datahub_startup_section (some "tok123") (Except.ok 200) =
      Except.ok { access_token := some "tok123",
                  headers := [("Authorization", "Bearer " ++ "tok123")],
                  probe_issued := true } :=
  C7_startup_probe "tok123" 401 "Connection refused" (by decide) (by decide)

/-- Claim C8: the lifespan closes the HTTP client on every exit path —
for every stored-token state, probe outcome and body outcome, including a
raising probe and a raising body, `client.aclose()` executes. -/
theorem C8_client_always_closed (stored_token : Option String)
    (probe : Except String Nat) (body : Except String Unit) :
    (Datahub_lifespan stored_token probe body).client_closed = true := by
  obtain ⟨st, hst⟩ := Datahub_startup_section_ne_error stored_token probe
  unfold Datahub_lifespan
  rw [hst]

/-- If every character of a list is whitespace, `dropWs` empties it. -/
theorem dropWs_all_ws (l : List Char) (h : l.all Char.isWhitespace = true) :
    dropWs l = [] := by
  induction l with
  | nil => rfl
  | cons c cs ih =>
    simp only [List.all_cons, Bool.and_eq_true] at h
    simp [dropWs, h.1, ih h.2]

/-- Claim C9 (implicit): a token file that exists but holds only whitespace
(or nothing) makes `load_stored_token` return the empty string, and startup
treats that as no token: no Authorization header is attached, no probe is
issued, and the context starts unauthenticated. -/
theorem C9_whitespace_token_unauthenticated (contents : String)
    (probe : Except String Nat)
    (h : contents.data.all Char.isWhitespace = true) :
    load_stored_token (TokenFile.contents contents) = some ""
    ∧ Datahub_startup_section
        (load_stored_token (TokenFile.contents contents)) probe =
      Except.ok { access_token := none, headers := [],
                  probe_issued := false } := by
  have hstrip : pyStrip contents = "" := by
    unfold pyStrip
    rw [dropWs_all_ws contents.data h]
    rfl
  refine ⟨by simp [load_stored_token, hstrip], ?_⟩
  simp [load_stored_token, hstrip, Datahub_startup_section, pyTruthy]

/-- Witness for C9: a token file holding spaces, a newline and a tab. -/
theorem C9_whitespace_token_unauthenticated_witness :
    load_stored_token (TokenFile.contents "  \n\t ") = some ""
    ∧ Datahub_startup_section
        (load_stored_token (TokenFile.contents "  \n\t ")) (Except.ok 200) =
      Except.ok { access_token := none, headers := [],
                  probe_issued := false } :=
  C9_whitespace_token_unauthenticated "  \n\t " (Except.ok 200) (by decide)

/-- Claim C10 (implicit): the startup probe accepts only status exactly 200
as valid — every other status, including 201, drops the stored token and
the Authorization header — even though `make_api_request` elsewhere treats
201 as a success and returns the parsed body. -/
theorem C10_probe_accepts_only_200 (t : String) (status : Nat)
    (backend : Backend) (method endpoint : String) (data : Option Json)
    (params : Option Params) (auto_refresh : Bool) (call : HttpCall)
    (text : String) (v : Json)
    (ht : t ≠ "") (hs : status ≠ 200)
    (hcall : make_request method endpoint data params = Except.ok call)
    (hresp : backend call = Except.ok ⟨201, text, v⟩) :
    Datahub_startup_section (some t) (Except.ok status) =
      Except.ok { access_token := none, headers := [],
                  probe_issued := true }
    ∧ (make_api_request backend method endpoint data params auto_refresh).1 =
      Except.ok v := by
  refine ⟨startup_drops_token_on_bad_status t status ht hs, ?_⟩
  unfold make_api_request
  rw [hcall]
  dsimp only
  rw [hresp]
  dsimp only
  rw [if_neg (by decide)]

/-- Witness for C10: probe status 201 is rejected by startup while the same
status is a success for `make_api_request`. -/
theorem C10_probe_accepts_only_200_witness :
    Datahub_startup_section (some "tok123") (Except.ok 201) =
      Except.ok { access_token := none, headers := [],
                  probe_issued := true }
    ∧ (make_api_request
        (fun _ => Except.ok ⟨201, "created", Json.str "doc"⟩)
        "get" "/v3/entity/dataset/urn:li:dataset:abc" none none true).1 =
      Except.ok (Json.str "doc") :=
  C10_probe_accepts_only_200 "tok123" 201
    (fun _ => Except.ok ⟨201, "created", Json.str "doc"⟩)
    "get" "/v3/entity/dataset/urn:li:dataset:abc" none none true
    (HttpCall.get "/v3/entity/dataset/urn:li:dataset:abc" none)
    "created" (Json.str "doc")
    (by decide) (by decide) (make_request_get _ _ _) rfl
